import Mathlib

/-!
Verification of the countdown/pause engine and terminal session logic of
`py_alarm.py` (reynoldscem/terminal-pomodoro).

Wall-clock timestamps (Python `time.time()` floats) are modelled as rationals.
Each call to `poll` receives one timestamp `now`; the two `time.time()` reads
that can occur inside one Python `poll` body are a fraction of a microsecond
apart and are modelled as the same instant.  Exceptional outcomes (the
`TypeError` that `time.time() - None` would raise) are modelled with `Option`.
-/

namespace PyAlarm

/-- Constant `REFRESH_RATE = 0.05` (line 38). -/
def REFRESH_RATE : ℚ := 1 / 20

/-- Constant `DEFAULT_VOLUME = 0.05` (line 43). -/
def DEFAULT_VOLUME : ℚ := 1 / 20

/-- Constant `DEFAULT_SOUNDPATH` (lines 46-49); the concrete directory prefix is
irrelevant to the claims, only the path's identity matters. -/
def DEFAULT_SOUNDPATH : String :=
  "data/siren_noise_soundbible_shorter_fadeout.wav"

deriving instance DecidableEq for Except

/-- State of `PauseObject` (lines 239-249).  `paused` is initialised to `0` and
thereafter only holds `not` of itself, so it is modelled as `Bool`. -/
structure PauseObject where
  paused : Bool
  state_changed : Bool
  current_pause_time : ℚ
  total_pause_time : ℚ
  pause_start : Option ℚ
  alive : Bool
deriving DecidableEq, Repr

/-- `PauseObject.__init__` (lines 240-249). -/
def PauseObject.init : PauseObject :=
  ⟨false, false, 0, 0, none, true⟩

/-- `PauseObject.toggle_pause` (lines 251-253). -/
def PauseObject.toggle_pause (s : PauseObject) : PauseObject :=
  { s with paused := !s.paused, state_changed := true }

/-- `PauseObject.event` (lines 255-260): returns whether the dirty flag was set
and consumes it. -/
def PauseObject.event (s : PauseObject) : Bool × PauseObject :=
  if s.state_changed then (true, { s with state_changed := false })
  else (false, s)

/-- `PauseObject.poll` (lines 262-270), with `now` the value of `time.time()`
during this call.  In the paused branch with no pending event and
`pause_start = None`, Python would raise a `TypeError`; that outcome is `none`
(it is proved unreachable from the initial state below). -/
def PauseObject.poll (s : PauseObject) (now : ℚ) : Option PauseObject :=
  if s.paused then
    let e := s.event
    let s2 := if e.1 then { e.2 with pause_start := some now } else e.2
    match s2.pause_start with
    | none => none
    | some p => some { s2 with current_pause_time := now - p }
  else
    let e := s.event
    let s2 :=
      if e.1 then
        { e.2 with total_pause_time := e.2.total_pause_time + e.2.current_pause_time }
      else e.2
    some { s2 with current_pause_time := 0 }

/-- `PauseObject.pause_time` (lines 272-276). -/
def PauseObject.pause_time (s : PauseObject) : ℚ :=
  if s.paused then s.current_pause_time + s.total_pause_time
  else s.total_pause_time

/-- `PauseObject.kill` (lines 278-279). -/
def PauseObject.kill (s : PauseObject) : PauseObject :=
  { s with alive := false }

/-- An operation performed on the shared `PauseObject`: a listener-thread
`toggle_pause` (lines 232-237), an engine-thread `poll` at a given timestamp,
or `kill`. -/
inductive Op where
  | toggle : Op
  | poll : ℚ → Op
  | kill : Op
deriving DecidableEq, Repr

/-- Apply one operation to the tracker state. -/
def applyOp (s : PauseObject) : Op → Option PauseObject
  | Op.toggle => some s.toggle_pause
  | Op.poll t => s.poll t
  | Op.kill => some s.kill

/-- Run a sequence of operations from a given state. -/
def runOpsFrom (s : PauseObject) : List Op → Option PauseObject
  | [] => some s
  | o :: rest => (applyOp s o).bind fun s' => runOpsFrom s' rest

/-- Run a sequence of operations from the freshly constructed tracker. -/
def runOps (l : List Op) : Option PauseObject :=
  runOpsFrom PauseObject.init l

/-!
The countdown loop (lines 282-307).  The listener thread (lines 232-237) runs
`toggle_pause` between render ticks; under the GIL each iteration of the render
loop observes some number of toggles followed by its own `poll`.  The loop is
therefore driven by a schedule: `sched i` is the number of keypress toggles
delivered before tick `i`, and `times i` is the wall clock at tick `i`
(non-decreasing in any real execution; stated as a hypothesis where needed).
-/

/-- Toggles delivered by the listener thread before a tick. -/
def applyToggles : ℕ → PauseObject → PauseObject
  | 0, s => s
  | n + 1, s => applyToggles n s.toggle_pause

/-- One render tick's interaction with the tracker: pending toggles, then the
engine's `poll` (line 294). -/
def tickPoll (sched : ℕ → ℕ) (times : ℕ → ℚ) (i : ℕ) (s : PauseObject) :
    Option PauseObject :=
  (applyToggles (sched i) s).poll (times i)

/-- The `while True` loop of `countdown` (lines 293-307), fuel-indexed since the
source loop need not terminate.  At tick `i` it polls, computes
`elapsed = times i - start_time - pause_time` (line 296) and, when
`elapsed >= upper_limit` (line 304), kills the tracker and exits (lines
305-307), returning the exit tick and the final tracker state.  `none` means
the fuel ran out (the loop is still running) or a poll raised. -/
def countdownLoop (sched : ℕ → ℕ) (times : ℕ → ℚ) (start_time upper_limit : ℚ) :
    ℕ → ℕ → PauseObject → Option (ℕ × PauseObject)
  | 0, _, _ => none
  | fuel + 1, i, s =>
    match tickPoll sched times i s with
    | none => none
    | some s' =>
      if upper_limit ≤ times i - start_time - s'.pause_time then
        some (i, s'.kill)
      else
        countdownLoop sched times start_time upper_limit fuel (i + 1) s'

/-- `countdown minutes_total` (lines 282-307): `upper_limit = minutes_total * 60`
(line 287), fresh `PauseObject` (line 290), loop from tick 0. -/
def countdown (sched : ℕ → ℕ) (times : ℕ → ℚ) (start_time : ℚ)
    (minutes_total : ℕ) (fuel : ℕ) : Option (ℕ × PauseObject) :=
  countdownLoop sched times start_time ((minutes_total : ℚ) * 60) fuel 0
    PauseObject.init

/-- Tracker state as seen by the loop: `runTicks sched times s i n` runs ticks
`i, i+1, ..., i+n-1` starting from state `s`. -/
def runTicks (sched : ℕ → ℕ) (times : ℕ → ℚ) :
    PauseObject → ℕ → ℕ → Option PauseObject
  | s, _, 0 => some s
  | s, i, n + 1 =>
    match tickPoll sched times i s with
    | none => none
    | some s' => runTicks sched times s' (i + 1) n

/-!
Terminal globals and the redraw flag: `TERMINAL_WIDTH`, `TERMINAL_HEIGHT`,
`CHANGED` (lines 57-59), `resize_handler` (lines 322-326) and
`clear_if_changed` (lines 218-229).  `get_terminal_size` is an OS query; its
result is an input to the resize handler.
-/

/-- The globals touched by the resize/redraw machinery.  Width and height are
`None` until the first `resize_handler` call; the claims only concern
`CHANGED`, but the handler's other writes are kept. -/
structure TermState where
  width : Option ℕ
  height : Option ℕ
  changed : Bool
deriving DecidableEq, Repr

/-- Initial module-level values (lines 57-59). -/
def TermState.init : TermState := ⟨none, none, false⟩

/-- `resize_handler` (lines 322-326) with `wh` the current OS-reported size. -/
def resize_handler (wh : ℕ × ℕ) (_t : TermState) : TermState :=
  ⟨some wh.1, some wh.2, true⟩

/-- `clear_if_changed` (lines 218-229): clears the screen and resets `CHANGED`
when it was set.  The first component records whether a screen clear was
performed. -/
def clear_if_changed (t : TermState) : Bool × TermState :=
  if t.changed then (true, { t with changed := false })
  else (false, t)

/-!
Startup validation and exit codes.  The payload of `Except.error` is the
process exit status the failure produces:

* `VolumeAction` (lines 116-122) calls `parser.error`, and argparse's
  `ArgumentParser.error` terminates the process with status 2;
* `SoundPathAction.check_soundpath` (lines 314-319) raises
  `FileNotFoundError`, `get_environment_volume` (lines 125-148) raises
  `EnvironmentError`, and `check_os` (lines 516-534) raises `OSError` — all
  before `main`'s `try` block (lines 536-541), so they escape as uncaught
  exceptions and the interpreter exits with status 1.

The filesystem is abstracted as a predicate `fs : String → Bool` telling
whether a path names an existing file (`os.path.isfile`, line 316); path
canonicalisation by `os.path.realpath` (line 317) is identity here.
-/

/-- `volume_out_of_bounds` (lines 112-113). -/
def volume_out_of_bounds (volume : ℚ) : Bool :=
  !(0 ≤ volume ∧ volume ≤ 1 : Bool)

/-- `VolumeAction.__call__` (lines 116-122): out-of-bounds raises
`parser.error`, which exits with argparse's status 2. -/
def VolumeAction_call (volume : ℚ) : Except ℕ ℚ :=
  if volume_out_of_bounds volume then Except.error 2 else Except.ok volume

/-- `SoundPathAction.check_soundpath` (lines 314-319): a missing file raises
`FileNotFoundError` (exit status 1 when uncaught at startup). -/
def check_soundpath (fs : String → Bool) (sound_path : String) :
    Except ℕ String :=
  if fs sound_path then Except.ok sound_path else Except.error 1

/-- `get_environment_volume` (lines 125-148) on an already-parsed value:
`none` when `PYALARM_VOLUME` is unset; an out-of-bounds value raises
`EnvironmentError` (exit status 1 when uncaught at startup).  (A string that
fails float parsing raises the same way; numeric parsing itself is outside the
model.) -/
def get_environment_volume (env : Option ℚ) : Except ℕ (Option ℚ) :=
  match env with
  | none => Except.ok none
  | some v =>
    if volume_out_of_bounds v then Except.error 1 else Except.ok (some v)

/-- The default for `--volume` (line 172):
`volume_from_env if volume_from_env else DEFAULT_VOLUME`.  Python truthiness:
`None` and `0.0` are falsy, so both select `DEFAULT_VOLUME`. -/
def volume_default (volume_from_env : Option ℚ) : ℚ :=
  match volume_from_env with
  | none => DEFAULT_VOLUME
  | some v => if v = 0 then DEFAULT_VOLUME else v

/-- `build_parser().parse_args()` (lines 151-177, 537) restricted to the sound
path and volume.  `soundArg`/`volumeArg` are the command-line values when the
options are given.  argparse invokes an argument's action only when the option
appears on the command line; an absent option stores the default directly, so
`SoundPathAction` never checks `DEFAULT_SOUNDPATH`. -/
def parse_args (fs : String → Bool) (env : Option ℚ)
    (soundArg : Option String) (volumeArg : Option ℚ) :
    Except ℕ (String × ℚ) :=
  match get_environment_volume env with
  | Except.error c => Except.error c
  | Except.ok volume_from_env =>
    match (match soundArg with
           | some p => check_soundpath fs p
           | none => Except.ok DEFAULT_SOUNDPATH) with
    | Except.error c => Except.error c
    | Except.ok sound_path =>
      match (match volumeArg with
             | some v => VolumeAction_call v
             | none => Except.ok (volume_default volume_from_env)) with
      | Except.error c => Except.error c
      | Except.ok volume => Except.ok (sound_path, volume)

/-- `run_sound` (lines 185-192) as far as file access goes:
`AudioSegment.from_wav(sound_path)` (line 191) opens the file, so a missing
file first fails here — after a countdown has completed. -/
def run_sound (fs : String → Bool) (sound_path : String) : Except ℕ Unit :=
  if fs sound_path then Except.ok () else Except.error 1

/-- Substring containment (Python's `sub in s`), by structural recursion over
the character list. -/
def strContainsAux (sub : List Char) : List Char → Bool
  | [] => sub.isEmpty
  | c :: rest => sub.isPrefixOf (c :: rest) || strContainsAux sub rest

/-- Python's `sub in s` on strings. -/
def strContains (s sub : String) : Bool :=
  strContainsAux sub.toList s.toList

/-- `check_os` (lines 516-534): `Except.ok` means a handler was produced and
startup continues; `Except.error c` means the process exits with status `c`.
`platform_string = system().lower()`.  The `'win32'` branch raises `OSError`
(uncaught, status 1); the final `else` branch calls `warn_general()` with no
argument (line 533), a `TypeError` that also escapes uncaught (status 1) — and
on a real Windows host `system().lower() = "windows"` does not contain
`"win32"`, so Windows in fact takes that `else` branch. -/
def check_os (platform_string : String) : Except ℕ Unit :=
  if strContains platform_string "linux" then Except.ok ()
  else if strContains platform_string "win32" then Except.error 1
  else if strContains platform_string "darwin" then Except.ok ()
  else Except.error 1

/-!
`main` (lines 536-556), `exit` (lines 329-340) and `main_loop` (lines
380-391): termination bookkeeping.  Once `main_loop` is running, there are
three ways the process can stop: `main_loop` returns (its iterator is
exhausted), an exception escapes it (caught by `except Exception`, line 551),
or SIGINT fires the installed handler `exit_` (line 548).  `exit` runs
`reset_terminal()` in a `finally` block and then `sys.exit(code)`; the raised
`SystemExit` is not an `Exception`, so it is not re-caught.
-/

/-- How the run loop ends. -/
inductive RunOutcome where
  | completes : RunOutcome
  | raisesException : RunOutcome
  | interrupted : RunOutcome
deriving DecidableEq, Repr

/-- `exit` (lines 329-340): the `finally` block calls `reset_terminal()` once,
then `sys.exit(code)`.  Result: (number of `reset_terminal` calls, process
exit status). -/
def exit (code : ℕ) : ℕ × ℕ := (1, code)

/-- Termination bookkeeping of `main` (lines 541-556) as a function of how the
run loop ends:

* `completes`: the `try` block finishes, `main` returns, and the interpreter
  exits with status 0 — `reset_terminal` is never called;
* `raisesException`: `except Exception` (line 551) calls `exit_(code=1)`;
* `interrupted`: the SIGINT handler (line 548) calls `exit_` with its default
  `code=0`. -/
def mainTermination : RunOutcome → ℕ × ℕ
  | RunOutcome.completes => (0, 0)
  | RunOutcome.raisesException => exit 1
  | RunOutcome.interrupted => exit 0

/-- The countdown sequence: `CycleAction`/the default make `args.countdowns`
`itertools.cycle` of a tuple or list (lines 107-109, 158); element `i` of the
cycled sequence, `none` when the underlying list is empty (then `cycle` is
immediately exhausted). -/
def cycleSeq (l : List ℕ) (i : ℕ) : Option ℕ :=
  l.get? (i % l.length)

/-- The `for countdown_amount in countdowns` loop of `main_loop` (lines
380-391), fuel-indexed: `some ()` means the iterator was exhausted and
`main_loop` returned normally (reaching the `else` clause, line 389); `none`
means the loop is still running after `fuel` iterations.  The loop body
(countdown, sound, reset) either completes or raises; a raise is the
`raisesException` outcome of `mainTermination` and is not a normal return, so
it does not appear here. -/
def main_loop_runs (seq : ℕ → Option ℕ) : ℕ → ℕ → Option Unit
  | 0, _ => none
  | fuel + 1, i =>
    match seq i with
    | none => some ()
    | some _ => main_loop_runs seq fuel (i + 1)

/-- Modelled from the spec: `currentPauseSeconds()` returns
`accumulatedPauseSeconds` plus, if currently paused, `now - pauseStartedAt`
evaluated at the time of the call.  Stated for comparison with the source's
`pause_time`, which takes no clock reading. -/
def currentPauseSeconds_spec (s : PauseObject) (now : ℚ) : ℚ :=
  s.total_pause_time + (if s.paused then now - (s.pause_start.getD 0) else 0)

/-! ### Helper lemmas -/

theorem event_fst (s : PauseObject) : (s.event).1 = s.state_changed := by
  by_cases h : s.state_changed <;> simp [PauseObject.event, h]

theorem event_snd_state_changed (s : PauseObject) :
    (s.event).2.state_changed = false := by
  by_cases h : s.state_changed <;> simp [PauseObject.event, h]

/-- `poll` with the dirty flag clear performs no transition bookkeeping: it
leaves `paused`, `pause_start`, `total_pause_time` (and the clear dirty flag)
unchanged. -/
theorem poll_clean (s : PauseObject) (t : ℚ) (s' : PauseObject)
    (hd : s.state_changed = false) (h : s.poll t = some s') :
    s'.paused = s.paused ∧ s'.state_changed = false ∧
    s'.pause_start = s.pause_start ∧
    s'.total_pause_time = s.total_pause_time := by
  by_cases hp : s.paused
  · simp only [PauseObject.poll, hp, if_true, PauseObject.event, hd,
      Bool.false_eq_true, if_false] at h
    cases hps : s.pause_start with
    | none => rw [hps] at h; exact absurd h (by simp)
    | some p => rw [hps] at h; cases h; simp [hp, hd, hps]
  · simp only [PauseObject.poll, hp, if_false, PauseObject.event, hd,
      Bool.false_eq_true, if_true] at h
    cases h
    simp [hd]
    exact Bool.not_eq_true s.paused ▸ hp

/-- Tracker state after `n` successive `event()` calls. -/
def eventIter : ℕ → PauseObject → PauseObject
  | 0, s => s
  | n + 1, s => ((eventIter n s).event).2

theorem eventIter_state_changed (s : PauseObject) (n : ℕ) :
    (eventIter (n + 1) s).state_changed = false := by
  induction n with
  | zero => exact event_snd_state_changed s
  | succ m _ => exact event_snd_state_changed (eventIter (m + 1) s)

/-! ### Claim theorems -/

/-- Claim C7: consuming the redraw flag is idempotent between resizes: one call
to `clear_if_changed` leaves `CHANGED = false`, and a second call with no
intervening `resize_handler` finds the flag false and performs no screen clear;
`resize_handler` sets the flag and `clear_if_changed` clears it. -/
theorem redraw_flag_idempotent (t : TermState) (wh : ℕ × ℕ) :
    ((clear_if_changed t).2.changed = false) ∧
    (clear_if_changed (clear_if_changed t).2 = (false, (clear_if_changed t).2)) ∧
    ((resize_handler wh t).changed = true) ∧
    ((clear_if_changed (resize_handler wh t)).1 = true ∧
      (clear_if_changed (resize_handler wh t)).2.changed = false) := by
  by_cases h : t.changed <;>
    simp [clear_if_changed, resize_handler, h]

/-- Claim C8: the dirty flag is observed true exactly once per transition:
after `toggle_pause`, the first `event()` consumption returns `true`, and every
later consumption (any number of further `event()` calls) returns `false` until
the next `toggle_pause`. -/
theorem dirty_true_exactly_once (s : PauseObject) (n : ℕ) :
    ((s.toggle_pause).event).1 = true ∧
    ((eventIter (n + 1) s.toggle_pause).event).1 = false := by
  constructor
  · rw [event_fst]
    rfl
  · rw [event_fst]
    exact eventIter_state_changed s.toggle_pause n

/-- Claim C4 counterexample: pause at t=0 (poll records `pause_start = 0`), a
further paused poll at t=1 (`current_pause_time = 1`), resume, next poll at
t=3.  The claim predicts the resume poll adds `now - pauseStartedAt = 3 - 0 = 3`
and clears `pauseStartedAt`; the code adds the one-tick-stale measurement `1`
and leaves `pause_start = some 0` in place. -/
theorem poll_resume_bookkeeping_counterexample :
    runOps [Op.toggle, Op.poll 0, Op.poll 1, Op.toggle, Op.poll 3] =
      some ⟨false, false, 0, 1, some 0, true⟩ ∧
    (PauseObject.total_pause_time ⟨false, false, 0, 1, some 0, true⟩ ≠ 3 - 0) ∧
    (PauseObject.pause_start ⟨false, false, 0, 1, some 0, true⟩ ≠ none) := by
  refine ⟨?_, by norm_num, by simp⟩
  norm_num [runOps, runOpsFrom, applyOp, PauseObject.poll, PauseObject.event,
    PauseObject.toggle_pause, PauseObject.init]

/-- Claim C4 (amended): if dirty, `poll` consumes the flag; on a transition
into paused it records `pauseStartedAt = now` (and zeroes the running
measurement); on a transition out of paused it adds the measurement taken by
the most recent paused poll — `current_pause_time`, not `now - pauseStartedAt`
— into `accumulatedPauseSeconds`, and `pauseStartedAt` is retained, not
cleared; if the dirty flag is not set, `poll` performs no transition
bookkeeping (`paused`, `pause_start` and `total_pause_time` are unchanged). -/
theorem poll_transition_bookkeeping (s : PauseObject) (t : ℚ) :
    (s.paused = true → s.state_changed = true →
      ∃ s', s.poll t = some s' ∧ s'.pause_start = some t ∧
        s'.current_pause_time = 0 ∧
        s'.total_pause_time = s.total_pause_time ∧ s'.state_changed = false) ∧
    (s.paused = false → s.state_changed = true →
      ∃ s', s.poll t = some s' ∧
        s'.total_pause_time = s.total_pause_time + s.current_pause_time ∧
        s'.current_pause_time = 0 ∧ s'.pause_start = s.pause_start ∧
        s'.state_changed = false) ∧
    (s.state_changed = false → ∀ s', s.poll t = some s' →
      s'.paused = s.paused ∧ s'.pause_start = s.pause_start ∧
      s'.total_pause_time = s.total_pause_time ∧ s'.state_changed = false) := by
  refine ⟨fun hp hd => ?_, fun hp hd => ?_, fun hd s' h => ?_⟩
  · refine ⟨⟨true, false, 0, s.total_pause_time, some t, s.alive⟩,
      ?_, rfl, rfl, rfl, rfl⟩
    simp [PauseObject.poll, PauseObject.event, hp, hd, sub_self]
  · refine ⟨⟨false, false, 0, s.total_pause_time + s.current_pause_time,
      s.pause_start, s.alive⟩, ?_, rfl, rfl, rfl, rfl⟩
    simp [PauseObject.poll, PauseObject.event, hp, hd]
  · obtain ⟨h1, h2, h3, h4⟩ := poll_clean s t s' hd h
    exact ⟨h1, h3, h4, h2⟩

/-- Witness for the amended C4 theorem at concrete states: a pause transition
at t=2, and a resume transition (with a stale measurement of 5 and
`pause_start = some 0` retained) at t=9. -/
theorem poll_transition_bookkeeping_witness :
    (∃ s', (⟨true, true, 0, 0, none, true⟩ : PauseObject).poll 2 = some s' ∧
      s'.pause_start = some 2 ∧ s'.current_pause_time = 0 ∧
      s'.total_pause_time = 0 ∧ s'.state_changed = false) ∧
    (∃ s', (⟨false, true, 5, 1, some 0, true⟩ : PauseObject).poll 9 = some s' ∧
      s'.total_pause_time = 1 + 5 ∧ s'.current_pause_time = 0 ∧
      s'.pause_start = some 0 ∧ s'.state_changed = false) :=
  ⟨(poll_transition_bookkeeping ⟨true, true, 0, 0, none, true⟩ 2).1 rfl rfl,
   (poll_transition_bookkeeping ⟨false, true, 5, 1, some 0, true⟩ 9).2.1 rfl rfl⟩

/-- Claim C6 counterexample: `pause_time` takes no clock reading; while paused
it returns the measurement of the most recent poll, not
`accumulatedPauseSeconds + (now - pauseStartedAt)` at the time of the call.
After pausing at t=0 and polling at t=1, a call made at now=2 returns 1, but
the spec formula gives 2. -/
theorem pause_time_not_call_time_counterexample :
    runOps [Op.toggle, Op.poll 0, Op.poll 1] =
      some ⟨true, false, 1, 0, some 0, true⟩ ∧
    PauseObject.pause_time ⟨true, false, 1, 0, some 0, true⟩ = 1 ∧
    currentPauseSeconds_spec ⟨true, false, 1, 0, some 0, true⟩ 2 = 2 ∧
    PauseObject.pause_time ⟨true, false, 1, 0, some 0, true⟩ ≠
      currentPauseSeconds_spec ⟨true, false, 1, 0, some 0, true⟩ 2 := by
  refine ⟨?_, by norm_num [PauseObject.pause_time],
    by norm_num [currentPauseSeconds_spec],
    by norm_num [PauseObject.pause_time, currentPauseSeconds_spec]⟩
  norm_num [runOps, runOpsFrom, applyOp, PauseObject.poll, PauseObject.event,
    PauseObject.toggle_pause, PauseObject.init]

/-- Claim C6 (amended): `pause_time` returns `accumulatedPauseSeconds` plus,
iff currently paused, the running pause measurement recorded by the most recent
`poll`; it equals exactly `accumulatedPauseSeconds` when not paused, and it
agrees with the spec's `now - pauseStartedAt` formula exactly at poll times:
immediately after a poll at clock `t` it equals `currentPauseSeconds_spec`
evaluated at `t`. -/
theorem pause_time_spec (s : PauseObject) (t : ℚ) :
    (s.paused = false → s.pause_time = s.total_pause_time) ∧
    (s.paused = true →
      s.pause_time = s.current_pause_time + s.total_pause_time) ∧
    (∀ s', s.poll t = some s' → s'.pause_time = currentPauseSeconds_spec s' t) := by
  refine ⟨fun hp => by simp [PauseObject.pause_time, hp],
          fun hp => by simp [PauseObject.pause_time, hp], fun s' h => ?_⟩
  by_cases hp : s.paused
  · by_cases hd : s.state_changed
    · simp only [PauseObject.poll, PauseObject.event, hp, hd, if_true] at h
      cases h
      simp [PauseObject.pause_time, currentPauseSeconds_spec, hp]
    · simp only [PauseObject.poll, PauseObject.event, hp, hd,
        Bool.false_eq_true, if_false, if_true] at h
      cases hps : s.pause_start with
      | none => rw [hps] at h; exact absurd h (by simp)
      | some p =>
        rw [hps] at h
        cases h
        simp [PauseObject.pause_time, currentPauseSeconds_spec, hp, hps]
        ring
  · have hp' : s.paused = false := Bool.not_eq_true s.paused ▸ hp
    by_cases hd : s.state_changed <;>
      · simp only [PauseObject.poll, PauseObject.event, hp', hd,
          Bool.false_eq_true, if_false, if_true] at h
        cases h
        simp [PauseObject.pause_time, currentPauseSeconds_spec, hp']

/-- Witness for the amended C6 theorem: a non-paused state returns exactly the
accumulator; a paused state returns accumulator plus last measurement; and
right after a poll at t=2 the value agrees with the spec formula at t=2. -/
theorem pause_time_spec_witness :
    (PauseObject.pause_time ⟨false, false, 0, 7, some 0, true⟩ = 7) ∧
    (PauseObject.pause_time ⟨true, false, 1, 7, some 0, true⟩ = 1 + 7) ∧
    (∀ s', (⟨true, false, 1, 7, some 0, true⟩ : PauseObject).poll 2 = some s' →
      s'.pause_time = currentPauseSeconds_spec s' 2) :=
  ⟨(pause_time_spec ⟨false, false, 0, 7, some 0, true⟩ 2).1 rfl,
   (pause_time_spec ⟨true, false, 1, 7, some 0, true⟩ 2).2.1 rfl,
   (pause_time_spec ⟨true, false, 1, 7, some 0, true⟩ 2).2.2⟩

/-- Poll timestamps in an operation list are non-decreasing, starting no
earlier than `t` (real wall clocks satisfy this). -/
def TimesMono : ℚ → List Op → Prop
  | _, [] => True
  | t, Op.poll u :: rest => t ≤ u ∧ TimesMono u rest
  | t, Op.toggle :: rest => TimesMono t rest
  | t, Op.kill :: rest => TimesMono t rest

/-- Clock-consistency invariant: the running pause measurement is non-negative
and any recorded pause start lies at or before the last poll time `t`. -/
def TimeInv (t : ℚ) (s : PauseObject) : Prop :=
  0 ≤ s.current_pause_time ∧ ∀ p, s.pause_start = some p → p ≤ t

theorem timeInv_init (t : ℚ) : TimeInv t PauseObject.init :=
  ⟨le_refl 0, fun p hp => by simp [PauseObject.init] at hp⟩

theorem poll_timeInv (s : PauseObject) (t u : ℚ) (s' : PauseObject)
    (hinv : TimeInv t s) (htu : t ≤ u) (h : s.poll u = some s') :
    TimeInv u s' ∧ s.total_pause_time ≤ s'.total_pause_time := by
  obtain ⟨hcur, hps⟩ := hinv
  by_cases hp : s.paused
  · by_cases hd : s.state_changed
    · simp only [PauseObject.poll, PauseObject.event, hp, hd, if_true] at h
      cases h
      refine ⟨⟨by simp, fun p hp' => ?_⟩, le_refl _⟩
      simp at hp'
      simp [hp']
    · simp only [PauseObject.poll, PauseObject.event, hp, hd,
        Bool.false_eq_true, if_false] at h
      cases hpsv : s.pause_start with
      | none => rw [hpsv] at h; exact absurd h (by simp)
      | some p =>
        rw [hpsv] at h
        cases h
        have hpt : p ≤ t := hps p hpsv
        refine ⟨⟨by simpa using le_trans hpt htu, fun q hq => ?_⟩, le_refl _⟩
        simp [hpsv] at hq
        exact hq ▸ le_trans hpt htu
  · have hp' : s.paused = false := Bool.not_eq_true s.paused ▸ hp
    by_cases hd : s.state_changed <;>
      · simp only [PauseObject.poll, PauseObject.event, hp', hd,
          Bool.false_eq_true, if_false, if_true] at h
        cases h
        refine ⟨⟨le_refl 0, fun q hq => ?_⟩, ?_⟩
        · simp at hq
          exact le_trans (hps q hq) htu
        · simp
          try exact hcur

theorem runOpsFrom_total_mono :
    ∀ (l : List Op) (t : ℚ) (s : PauseObject), TimeInv t s → TimesMono t l →
      ∀ s', runOpsFrom s l = some s' →
        s.total_pause_time ≤ s'.total_pause_time := by
  intro l
  induction l with
  | nil =>
    intro t s _ _ s' h
    cases h
    exact le_refl _
  | cons o rest ih =>
    intro t s hinv hmono s' h
    cases o with
    | toggle =>
      simp only [runOpsFrom, applyOp, Option.bind_some, Option.some_bind] at h
      refine ih t s.toggle_pause ?_ hmono s' h
      exact ⟨hinv.1, hinv.2⟩
    | kill =>
      simp only [runOpsFrom, applyOp, Option.bind_some, Option.some_bind] at h
      refine ih t s.kill ?_ hmono s' h
      exact ⟨hinv.1, hinv.2⟩
    | poll u =>
      obtain ⟨htu, hmono'⟩ := hmono
      simp only [runOpsFrom, applyOp] at h
      cases hpoll : s.poll u with
      | none => rw [hpoll] at h; exact absurd h (by simp)
      | some s1 =>
        rw [hpoll] at h
        simp only [Option.some_bind] at h
        obtain ⟨hinv1, hle⟩ := poll_timeInv s t u s1 hinv htu hpoll
        exact le_trans hle (ih u s1 hinv1 hmono' s' h)

/-- Reachability invariant: once the dirty flag is consumed, a paused tracker
always carries a pause start (this is what makes the `TypeError` branch of
`poll` unreachable in the program). -/
def PSInv (s : PauseObject) : Prop :=
  s.state_changed = false → s.paused = true → s.pause_start ≠ none

theorem applyOp_psInv (s : PauseObject) (o : Op) (s' : PauseObject)
    (hinv : PSInv s) (h : applyOp s o = some s') : PSInv s' := by
  cases o with
  | toggle =>
    cases h
    intro hd
    simp [PauseObject.toggle_pause] at hd
  | kill =>
    cases h
    intro hd hp
    exact hinv hd hp
  | poll u =>
    simp only [applyOp] at h
    by_cases hp : s.paused
    · by_cases hd : s.state_changed
      · simp only [PauseObject.poll, PauseObject.event, hp, hd, if_true] at h
        cases h
        intro _ _
        simp
      · simp only [PauseObject.poll, PauseObject.event, hp, hd,
          Bool.false_eq_true, if_false] at h
        cases hpsv : s.pause_start with
        | none => rw [hpsv] at h; exact absurd h (by simp)
        | some p =>
          rw [hpsv] at h
          cases h
          intro _ _
          simp [hpsv]
    · have hp' : s.paused = false := Bool.not_eq_true s.paused ▸ hp
      by_cases hd : s.state_changed <;>
        · simp only [PauseObject.poll, PauseObject.event, hp', hd,
            Bool.false_eq_true, if_false, if_true] at h
          cases h
          intro _ hpp
          simp [hp'] at hpp

theorem runOps_psInv :
    ∀ (l : List Op) (s : PauseObject), PSInv s →
      ∀ s', runOpsFrom s l = some s' → PSInv s' := by
  intro l
  induction l with
  | nil =>
    intro s hinv s' h
    cases h
    exact hinv
  | cons o rest ih =>
    intro s hinv s' h
    simp only [runOpsFrom] at h
    cases hop : applyOp s o with
    | none => rw [hop] at h; exact absurd h (by simp)
    | some s1 =>
      rw [hop] at h
      simp only [Option.some_bind] at h
      exact ih s1 (applyOp_psInv s o s1 hinv hop) s' h

/-- Claim C5 counterexample: after one completed pause/resume cycle
(toggle, poll at t=0, toggle, poll at t=1), `paused` is false yet
`pause_start` is still `some 0` — `pauseStartedAt` is not absent while
unpaused, contradicting the claimed invariant. -/
theorem pause_start_present_while_unpaused :
    runOps [Op.toggle, Op.poll 0, Op.toggle, Op.poll 1] =
      some ⟨false, false, 0, 0, some 0, true⟩ ∧
    PauseObject.paused ⟨false, false, 0, 0, some 0, true⟩ = false ∧
    PauseObject.pause_start ⟨false, false, 0, 0, some 0, true⟩ ≠ none := by
  refine ⟨?_, rfl, by simp⟩
  norm_num [runOps, runOpsFrom, applyOp, PauseObject.poll, PauseObject.event,
    PauseObject.toggle_pause, PauseObject.init]

/-- Claim C5 (amended): across every reachable state of the tracker,
`accumulatedPauseSeconds` is monotonically non-decreasing (given
non-decreasing poll timestamps); while `paused` is true with the dirty flag
consumed, `pauseStartedAt` is set, and no poll without an intervening toggle
changes it; but after the first completed pause, `pauseStartedAt` is retained
— not absent — while `paused` is false. -/
theorem pause_tracker_invariants :
    (∀ (l : List Op) (t : ℚ) (s s' : PauseObject), TimeInv t s →
        TimesMono t l → runOpsFrom s l = some s' →
        s.total_pause_time ≤ s'.total_pause_time) ∧
    (∀ (l : List Op) (s' : PauseObject), runOps l = some s' →
        s'.state_changed = false → s'.paused = true → s'.pause_start ≠ none) ∧
    (∀ (s : PauseObject) (u : ℚ) (s' : PauseObject), s.state_changed = false →
        s.poll u = some s' → s'.pause_start = s.pause_start) :=
  ⟨fun l t s s' hinv hmono h => runOpsFrom_total_mono l t s hinv hmono s' h,
   fun l s' h => runOps_psInv l PauseObject.init
     (fun _ hp => by simp [PauseObject.init] at hp) s' h,
   fun s u s' hd h => (poll_clean s u s' hd h).2.2.1⟩

/-- Witness for the amended C5 theorem on concrete runs: the accumulator grows
monotonically along a pause/resume trace; a paused reachable state carries its
pause start; and an unconsumed poll leaves `pause_start` untouched. -/
theorem pause_tracker_invariants_witness :
    (PauseObject.total_pause_time PauseObject.init ≤
      PauseObject.total_pause_time ⟨false, false, 0, 1, some 0, true⟩) ∧
    (PauseObject.pause_start ⟨true, false, 0, 0, some 0, true⟩ ≠ none) ∧
    (PauseObject.pause_start ⟨true, false, 2, 0, some 0, true⟩ =
      PauseObject.pause_start ⟨true, false, 1, 0, some 0, true⟩) := by
  refine ⟨?_, ?_, ?_⟩
  · refine pause_tracker_invariants.1
      [Op.toggle, Op.poll 0, Op.poll 1, Op.toggle, Op.poll 3] 0
      PauseObject.init ⟨false, false, 0, 1, some 0, true⟩ (timeInv_init 0)
      (by norm_num [TimesMono]) ?_
    norm_num [runOpsFrom, applyOp, PauseObject.poll, PauseObject.event,
      PauseObject.toggle_pause, PauseObject.init]
  · refine pause_tracker_invariants.2.1 [Op.toggle, Op.poll 0]
      ⟨true, false, 0, 0, some 0, true⟩ ?_ rfl rfl
    norm_num [runOps, runOpsFrom, applyOp, PauseObject.poll,
      PauseObject.event, PauseObject.toggle_pause, PauseObject.init]
  · refine pause_tracker_invariants.2.2 ⟨true, false, 1, 0, some 0, true⟩ 2
      ⟨true, false, 2, 0, some 0, true⟩ rfl ?_
    norm_num [PauseObject.poll, PauseObject.event]

theorem countdownLoop_spec (sched : ℕ → ℕ) (times : ℕ → ℚ)
    (start_time upper_limit : ℚ) :
    ∀ (fuel i : ℕ) (s : PauseObject) (k : ℕ) (sF : PauseObject),
      countdownLoop sched times start_time upper_limit fuel i s = some (k, sF) →
      i ≤ k ∧
      (∃ s', runTicks sched times s i (k + 1 - i) = some s' ∧ sF = s'.kill ∧
        upper_limit ≤ times k - start_time - s'.pause_time) ∧
      (∀ j, i ≤ j → j < k →
        ∃ s', runTicks sched times s i (j + 1 - i) = some s' ∧
          times j - start_time - s'.pause_time < upper_limit) := by
  intro fuel
  induction fuel with
  | zero =>
    intro i s k sF h
    simp [countdownLoop] at h
  | succ n ih =>
    intro i s k sF h
    simp only [countdownLoop] at h
    cases hp : tickPoll sched times i s with
    | none => rw [hp] at h; exact absurd h (by simp)
    | some s1 =>
      rw [hp] at h
      replace h : (if upper_limit ≤ times i - start_time - s1.pause_time then
          some (i, s1.kill)
        else countdownLoop sched times start_time upper_limit n (i + 1) s1) =
          some (k, sF) := h
      by_cases hc : upper_limit ≤ times i - start_time - s1.pause_time
      · rw [if_pos hc] at h
        simp only [Option.some.injEq, Prod.mk.injEq] at h
        obtain ⟨hk, hs⟩ := h
        subst hk
        subst hs
        refine ⟨le_refl i, ⟨s1, ?_, rfl, hc⟩, fun j hij hji => absurd hji (by omega)⟩
        have e : i + 1 - i = 1 := by omega
        rw [e]
        simp [runTicks, hp]
      · rw [if_neg hc] at h
        obtain ⟨h1, ⟨s', hrt, hsF, hb⟩, hall⟩ := ih (i + 1) s1 k sF h
        refine ⟨by omega, ⟨s', ?_, hsF, hb⟩, ?_⟩
        · have e : k + 1 - i = (k + 1 - (i + 1)) + 1 := by omega
          rw [e]
          simpa [runTicks, hp] using hrt
        · intro j hij hjk
          by_cases hji : j = i
          · subst hji
            refine ⟨s1, ?_, lt_of_not_le hc⟩
            have e : j + 1 - j = 1 := by omega
            rw [e]
            simp [runTicks, hp]
          · obtain ⟨s'', hrt'', hb''⟩ := hall j (by omega) hjk
            refine ⟨s'', ?_, hb''⟩
            have e : j + 1 - i = (j + 1 - (i + 1)) + 1 := by omega
            rw [e]
            simpa [runTicks, hp] using hrt''

/-- Claim C1: a countdown of `totalSeconds = minutes_total * 60` completes
exactly when `elapsed = now - startTime - pause_time` first reaches
`totalSeconds`: if the loop exits at tick `k`, then at every earlier tick the
(pause-adjusted) elapsed time was still below the limit, at tick `k` it reached
the limit, and the exit kills the tracker (`alive = false`, the listener's stop
signal) — so time spent paused, which `pause_time` subtracts, does not count
toward `elapsed`. -/
theorem countdown_first_crossing (sched : ℕ → ℕ) (times : ℕ → ℚ)
    (start_time : ℚ) (minutes_total fuel k : ℕ) (sF : PauseObject)
    (h : countdown sched times start_time minutes_total fuel = some (k, sF)) :
    (∃ s', runTicks sched times PauseObject.init 0 (k + 1) = some s' ∧
      sF = s'.kill ∧ sF.alive = false ∧
      (minutes_total : ℚ) * 60 ≤ times k - start_time - s'.pause_time) ∧
    (∀ j, j < k →
      ∃ s', runTicks sched times PauseObject.init 0 (j + 1) = some s' ∧
        times j - start_time - s'.pause_time < (minutes_total : ℚ) * 60) := by
  obtain ⟨-, ⟨s', hrt, hsF, hb⟩, hall⟩ :=
    countdownLoop_spec sched times start_time ((minutes_total : ℚ) * 60)
      fuel 0 PauseObject.init k sF h
  refine ⟨⟨s', by simpa using hrt, hsF, by simp [hsF, PauseObject.kill], hb⟩, ?_⟩
  intro j hj
  obtain ⟨s'', h1, h2⟩ := hall j (Nat.zero_le j) hj
  exact ⟨s'', by simpa using h1, h2⟩

/-- Listener keypress schedule for the C1 witness run: a pause keypress
arrives before tick 1 and the resume keypress before tick 3. -/
def exSched : ℕ → ℕ
  | 1 => 1
  | 3 => 1
  | _ => 0

/-- Wall-clock schedule for the C1 witness run: the pause begins at t=3 and
lasts 10 seconds (ticks at 0, 3, 13, 13, 60, 70, ...). -/
def exTimes : ℕ → ℚ
  | 0 => 0
  | 1 => 3
  | 2 => 13
  | 3 => 13
  | 4 => 60
  | n + 5 => 70 + (n : ℚ)

/-- Tracker state when the C1 witness run completes. -/
def exFinal : PauseObject := ⟨false, false, 0, 10, some 3, false⟩

/-- Witness for the C1 theorem: a 1-minute countdown paused for 10 seconds
starting at t=3 completes at wall clock 70 = 60 + 10 (tick 5), with the
10 paused seconds excluded from `elapsed`; at tick 4 (wall clock 60, the
nominal duration) the countdown is still running. -/
theorem countdown_first_crossing_witness :
    countdown exSched exTimes 0 1 10 = some (5, exFinal) ∧
    exTimes 5 = 70 ∧
    ((∃ s', runTicks exSched exTimes PauseObject.init 0 6 = some s' ∧
      exFinal = s'.kill ∧ exFinal.alive = false ∧
      ((1 : ℕ) : ℚ) * 60 ≤ exTimes 5 - 0 - s'.pause_time) ∧
    (∀ j, j < 5 →
      ∃ s', runTicks exSched exTimes PauseObject.init 0 (j + 1) = some s' ∧
        exTimes j - 0 - s'.pause_time < ((1 : ℕ) : ℚ) * 60)) := by
  have h : countdown exSched exTimes 0 1 10 = some (5, exFinal) := by
    norm_num [countdown, countdownLoop, tickPoll, applyToggles,
      PauseObject.poll, PauseObject.event, PauseObject.toggle_pause,
      PauseObject.pause_time, PauseObject.kill, PauseObject.init,
      exSched, exTimes, exFinal]
  exact ⟨h, by norm_num [exTimes],
    countdown_first_crossing exSched exTimes 0 1 10 5 exFinal h⟩

/-- Claim C2 counterexample: on the normal-completion termination path — the
run loop returning after exhausting its iterator — `main` falls off the end of
its `try` block and the terminal-restoration callback is never invoked:
0 calls, not exactly once. -/
theorem reset_skipped_on_normal_completion :
    (mainTermination RunOutcome.completes).1 = 0 ∧
    (mainTermination RunOutcome.completes).1 ≠ 1 := by decide

/-- Claim C2 (amended): the terminal-restoration callback returned by
`setup_terminal` runs exactly once on the user-interrupt path and on the
unrecovered-internal-failure path; a normal return of the run loop would skip
it entirely, but that path is unreachable: the countdown sequence is
`itertools.cycle` of a nonempty list, so `main_loop`'s iterator is never
exhausted. -/
theorem reset_terminal_on_termination (l : List ℕ) (h : l ≠ []) :
    (mainTermination RunOutcome.interrupted).1 = 1 ∧
    (mainTermination RunOutcome.raisesException).1 = 1 ∧
    (mainTermination RunOutcome.completes).1 = 0 ∧
    ∀ fuel i, main_loop_runs (cycleSeq l) fuel i = none := by
  refine ⟨rfl, rfl, rfl, ?_⟩
  intro fuel
  induction fuel with
  | zero =>
    intro i
    rfl
  | succ n ih =>
    intro i
    have hlen : 0 < l.length := List.length_pos.mpr h
    have hlt : i % l.length < l.length := Nat.mod_lt i hlen
    cases hg : cycleSeq l i with
    | none =>
      simp only [cycleSeq] at hg
      rw [List.get?_eq_none] at hg
      omega
    | some m =>
      show (match cycleSeq l i with
        | none => some ()
        | some _ => main_loop_runs (cycleSeq l) n (i + 1)) = none
      rw [hg]
      exact ih (i + 1)

/-- Witness for the amended C2 theorem with the default duration cycle
`[25, 5]`: both exit-calling paths restore the terminal once, and the run loop
is still going after (for instance) 7 iterations. -/
theorem reset_terminal_on_termination_witness :
    (mainTermination RunOutcome.interrupted).1 = 1 ∧
    (mainTermination RunOutcome.raisesException).1 = 1 ∧
    (mainTermination RunOutcome.completes).1 = 0 ∧
    main_loop_runs (cycleSeq [25, 5]) 7 0 = none :=
  ⟨(reset_terminal_on_termination [25, 5] (by simp)).1,
   (reset_terminal_on_termination [25, 5] (by simp)).2.1,
   (reset_terminal_on_termination [25, 5] (by simp)).2.2.1,
   (reset_terminal_on_termination [25, 5] (by simp)).2.2.2 7 0⟩

/-- Claim C3 counterexample: an out-of-range `--volume` value is a startup
validation failure, yet `VolumeAction` reports it through `parser.error`,
which terminates the process with argparse's exit status 2, not 1. -/
theorem bad_cli_volume_exit_code :
    parse_args (fun _ => true) none none (some 2) = Except.error 2 ∧
    (2 : ℕ) ≠ 1 := by
  constructor
  · simp [parse_args, get_environment_volume, check_soundpath,
      VolumeAction_call, volume_out_of_bounds]
  · decide

/-- Claim C3 (amended): the exit code is 0 for interrupt-driven shutdown and 1
for an unhandled run-loop exception, a missing `--sound-path` file, a bad
environment volume, and an unsupported host (both the `win32` branch and the
crashing `else` branch taken by real Windows) — but an out-of-range `--volume`
command-line value exits with argparse's status 2 rather than 1. -/
theorem exit_codes (fs : String → Bool) (p : String) (e v : ℚ)
    (hf : fs p = false) (he : volume_out_of_bounds e = true)
    (hv : volume_out_of_bounds v = true) :
    (mainTermination RunOutcome.interrupted).2 = 0 ∧
    (mainTermination RunOutcome.raisesException).2 = 1 ∧
    parse_args fs none (some p) none = Except.error 1 ∧
    parse_args fs (some e) none none = Except.error 1 ∧
    check_os "windows" = Except.error 1 ∧
    check_os "win32" = Except.error 1 ∧
    parse_args (fun _ => true) none none (some v) = Except.error 2 := by
  refine ⟨rfl, rfl, ?_, ?_, by decide, by decide, ?_⟩
  · simp [parse_args, get_environment_volume, check_soundpath, hf]
  · simp [parse_args, get_environment_volume, he]
  · simp [parse_args, get_environment_volume, check_soundpath,
      VolumeAction_call, hv]

/-- Witness for the amended C3 theorem at a concrete configuration: missing
file `"nope.wav"`, environment volume 2, command-line volume 2. -/
theorem exit_codes_witness :
    (mainTermination RunOutcome.interrupted).2 = 0 ∧
    (mainTermination RunOutcome.raisesException).2 = 1 ∧
    parse_args (fun _ => false) none (some "nope.wav") none = Except.error 1 ∧
    parse_args (fun _ => false) (some 2) none none = Except.error 1 ∧
    check_os "windows" = Except.error 1 ∧
    check_os "win32" = Except.error 1 ∧
    parse_args (fun _ => true) none none (some 2) = Except.error 2 :=
  exit_codes (fun _ => false) "nope.wav" 2 2 rfl (by decide) (by decide)

/-- Claim C9 counterexample: when `--sound-path` is not given and the default
sound file is absent, startup validation succeeds (argparse stores the default
without running `SoundPathAction`), and the missing file is first discovered by
`run_sound` — mid-run, after a countdown has completed. -/
theorem default_sound_path_unchecked :
    parse_args (fun _ => false) none none none =
      Except.ok (DEFAULT_SOUNDPATH, DEFAULT_VOLUME) ∧
    run_sound (fun _ => false) DEFAULT_SOUNDPATH = Except.error 1 := by
  constructor
  · simp [parse_args, get_environment_volume, volume_default]
  · simp [run_sound]

/-- Claim C9 (amended): a missing sound file passed via `--sound-path` is a
startup-time fatal error; but the default sound path is stored without
validation when the option is omitted, so a missing default file passes
startup and is first discovered when playback is attempted mid-run. -/
theorem sound_path_checked_only_when_given (fs : String → Bool) (p : String)
    (hmiss : fs p = false) (hdef : fs DEFAULT_SOUNDPATH = false) :
    parse_args fs none (some p) none = Except.error 1 ∧
    parse_args fs none none none =
      Except.ok (DEFAULT_SOUNDPATH, DEFAULT_VOLUME) ∧
    run_sound fs DEFAULT_SOUNDPATH = Except.error 1 := by
  refine ⟨?_, ?_, ?_⟩
  · simp [parse_args, get_environment_volume, check_soundpath, hmiss]
  · simp [parse_args, get_environment_volume, volume_default]
  · simp [run_sound, hdef]

/-- Witness for the amended C9 theorem on the empty filesystem. -/
theorem sound_path_checked_only_when_given_witness :
    parse_args (fun _ => false) none (some "missing.wav") none =
      Except.error 1 ∧
    parse_args (fun _ => false) none none none =
      Except.ok (DEFAULT_SOUNDPATH, DEFAULT_VOLUME) ∧
    run_sound (fun _ => false) DEFAULT_SOUNDPATH = Except.error 1 :=
  sound_path_checked_only_when_given (fun _ => false) "missing.wav" rfl rfl

/-- Claim C10: an environment volume of 0 passes the `[0, 1]` bounds check,
but the default-selection expression tests Python truthiness, so the effective
default volume falls back to `DEFAULT_VOLUME = 0.05`; every other in-range
environment value becomes the effective default volume. -/
theorem env_volume_zero_ignored (fs : String → Bool) (v : ℚ)
    (hin : volume_out_of_bounds v = false) (hnz : v ≠ 0) :
    volume_out_of_bounds 0 = false ∧
    parse_args fs (some 0) none none =
      Except.ok (DEFAULT_SOUNDPATH, DEFAULT_VOLUME) ∧
    parse_args fs (some v) none none = Except.ok (DEFAULT_SOUNDPATH, v) := by
  have h0 : volume_out_of_bounds 0 = false := by
    norm_num [volume_out_of_bounds]
  refine ⟨h0, ?_, ?_⟩
  · simp [parse_args, get_environment_volume, volume_default, h0]
  · simp [parse_args, get_environment_volume, volume_default, hin, hnz]

/-- Witness for the C10 theorem: environment volume 1/2 is used as the
default; environment volume 0 yields 0.05. -/
theorem env_volume_zero_ignored_witness :
    volume_out_of_bounds 0 = false ∧
    parse_args (fun _ => true) (some 0) none none =
      Except.ok (DEFAULT_SOUNDPATH, DEFAULT_VOLUME) ∧
    parse_args (fun _ => true) (some (1 / 2)) none none =
      Except.ok (DEFAULT_SOUNDPATH, 1 / 2) :=
  env_volume_zero_ignored (fun _ => true) (1 / 2)
    (by norm_num [volume_out_of_bounds]) (by norm_num)

end PyAlarm
